import Mathlib

/-!
Shallow embedding of `src/main.rs` of the nvidia-cdi-device-plugin repository.

The program is a Kubernetes device plugin. Its pure core is embedded here:
  * `discover_devices` (main.rs lines 51-72): glob enumeration to a `BTreeMap`
    of devices, ids `"{resource_name}={idx}"`.
  * the four device-plugin RPC handlers (`allocate`,
    `get_preferred_allocation`, `list_and_watch`, options / prestart);
  * `start_device_plugin_server` (lines 205-228): stale-socket removal, bind,
    spawn;
  * the `maintain_registration` coordinator loop (lines 277-325) and the
    shutdown watch channel used by `main` (lines 337, 365).

Stateful / IO-dependent parts are embedded as explicit state passing: the
filesystem and network outcomes (glob pattern validity, socket-file presence,
bind results, registration results) are inputs, and the side effects the loop
performs are recorded as explicit action traces.
-/

namespace NvidiaCdi

/-- `k8s::Device` (generated from the v1beta1 proto): id, health, topology.
Topology is unused by this plugin (always `None`); its payload is irrelevant,
so it is modelled as `Option Unit`. -/
structure Device where
  id : String
  health : String
  topology : Option Unit
deriving DecidableEq, Repr

/-- Device construction in `discover_devices`: `health: "Healthy"`,
`topology: None` (main.rs lines 59-63). -/
def mkDevice (id : String) : Device :=
  { id := id, health := "Healthy", topology := none }

/-- The device id format `format!("{resource_name}={idx}")` (main.rs line 56). -/
def deviceId (resourceName : String) (idx : Nat) : String :=
  resourceName ++ "=" ++ Nat.repr idx

/-- gRPC status codes used by the plugin (`Status::invalid_argument`,
`Status::internal`). -/
inductive StatusCode where
  | invalidArgument
  | internal
deriving DecidableEq, Repr

/-- A gRPC `Status`: a code plus a message. -/
structure Status where
  code : StatusCode
  message : String
deriving DecidableEq, Repr

/-- `Status::invalid_argument(msg)`. -/
def Status.invalid_argument (msg : String) : Status :=
  { code := StatusCode.invalidArgument, message := msg }

/-- The `BTreeMap<String, Device>` inventory is embedded as its entry list in
key order; `contains_key` is membership among the keys (first components). -/
def containsKey (devices : List (String × Device)) (k : String) : Bool :=
  devices.any (fun kv => kv.fst == k)

/-- Ordered insert with key replacement: the semantics of
`BTreeMap::insert` on the entry-list representation. -/
def btreeInsert (k : String) (v : Device) :
    List (String × Device) → List (String × Device)
  | [] => [(k, v)]
  | (k₀, v₀) :: rest =>
    if k < k₀ then (k, v) :: (k₀, v₀) :: rest
    else if k = k₀ then (k, v) :: rest
    else (k₀, v₀) :: btreeInsert k v rest

/-- `k8s::CdiDevice` — a CDI device reference by name. -/
structure CdiDevice where
  name : String
deriving DecidableEq, Repr

/-- `k8s::Mount` from the v1beta1 proto. -/
structure Mount where
  container_path : String
  host_path : String
  read_only : Bool
deriving DecidableEq, Repr

/-- `k8s::DeviceSpec` from the v1beta1 proto. -/
structure DeviceSpec where
  container_path : String
  host_path : String
  permissions : String
deriving DecidableEq, Repr

/-- `k8s::ContainerAllocateRequest` (field `devices_ids`). -/
structure ContainerAllocateRequest where
  devices_ids : List String
deriving DecidableEq, Repr

/-- `k8s::AllocateRequest`. -/
structure AllocateRequest where
  container_requests : List ContainerAllocateRequest
deriving DecidableEq, Repr

/-- `k8s::ContainerAllocateResponse`; the proto string maps are embedded as
association lists. -/
structure ContainerAllocateResponse where
  envs : List (String × String)
  mounts : List Mount
  devices : List DeviceSpec
  annotations : List (String × String)
  cdi_devices : List CdiDevice
deriving DecidableEq, Repr

/-- `k8s::AllocateResponse`. -/
structure AllocateResponse where
  container_responses : List ContainerAllocateResponse
deriving DecidableEq, Repr

/-- The inner loop of `allocate` over one container request (main.rs lines
149-159): walk `devices_ids` in order; on the first id not in the inventory
return `Status::invalid_argument("unknown device ID {dev_id}")`, otherwise
collect a `CdiDevice` per id. -/
def allocateContainer (devices : List (String × Device)) :
    List String → Except Status (List CdiDevice)
  | [] => Except.ok []
  | devId :: rest =>
    if containsKey devices devId then
      match allocateContainer devices rest with
      | Except.ok cdis => Except.ok ({ name := devId } :: cdis)
      | Except.error s => Except.error s
    else
      Except.error (Status.invalid_argument ("unknown device ID " ++ devId))

/-- The outer loop of `allocate` (main.rs lines 146-168): one
`ContainerAllocateResponse` per container request, short-circuiting on the
first error; `envs`, `mounts`, `devices`, `annotations` are left empty. -/
def allocateLoop (devices : List (String × Device)) :
    List ContainerAllocateRequest → Except Status (List ContainerAllocateResponse)
  | [] => Except.ok []
  | creq :: rest =>
    match allocateContainer devices creq.devices_ids with
    | Except.error s => Except.error s
    | Except.ok cdis =>
      match allocateLoop devices rest with
      | Except.error s => Except.error s
      | Except.ok resps =>
        Except.ok ({ envs := [], mounts := [], devices := [],
                     annotations := [], cdi_devices := cdis } :: resps)

/-- `allocate` (main.rs lines 139-173). -/
def allocate (devices : List (String × Device)) (req : AllocateRequest) :
    Except Status AllocateResponse :=
  match allocateLoop devices req.container_requests with
  | Except.error s => Except.error s
  | Except.ok resps => Except.ok { container_responses := resps }

/-- The successful `ContainerAllocateResponse` for one container request:
exactly the requested ids as CDI device references, nothing else synthesized. -/
def okContainerResponse (creq : ContainerAllocateRequest) : ContainerAllocateResponse :=
  { envs := [], mounts := [], devices := [], annotations := [],
    cdi_devices := creq.devices_ids.map (fun devId => { name := devId }) }

/-- The first device id of the request that is absent from the inventory, in
the scan order of `allocate` (containers in order, ids in order). -/
def firstUnknownId (devices : List (String × Device)) :
    List ContainerAllocateRequest → Option String
  | [] => none
  | creq :: rest =>
    match creq.devices_ids.find? (fun devId => ! containsKey devices devId) with
    | some devId => some devId
    | none => firstUnknownId devices rest

/-- `k8s::ContainerPreferredAllocationRequest`: `available_device_i_ds` and the
proto `int32` field `allocation_size`, embedded as an `Int` constrained to the
i32 range by hypotheses where relevant. -/
structure ContainerPreferredAllocationRequest where
  available_device_i_ds : List String
  allocation_size : Int
deriving DecidableEq, Repr

/-- `k8s::PreferredAllocationRequest`. -/
structure PreferredAllocationRequest where
  container_requests : List ContainerPreferredAllocationRequest
deriving DecidableEq, Repr

/-- `k8s::ContainerPreferredAllocationResponse`. -/
structure ContainerPreferredAllocationResponse where
  device_i_ds : List String
deriving DecidableEq, Repr

/-- `k8s::PreferredAllocationResponse`. -/
structure PreferredAllocationResponse where
  container_responses : List ContainerPreferredAllocationResponse
deriving DecidableEq, Repr

/-- The Rust cast `allocation_size as usize` (i32 to 64-bit usize): sign-extend
and reinterpret, i.e. reduce modulo 2^64 (main.rs line 185). -/
def i32AsUsize (n : Int) : Nat :=
  (n % ((2 : Int) ^ 64)).toNat

/-- `get_preferred_allocation` (main.rs lines 175-195): per container request,
take the first `allocation_size as usize` entries of
`available_device_i_ds` in caller order. -/
def get_preferred_allocation (req : PreferredAllocationRequest) :
    PreferredAllocationResponse :=
  { container_responses :=
      req.container_requests.map (fun creq =>
        { device_i_ds :=
            creq.available_device_i_ds.take (i32AsUsize creq.allocation_size) }) }

/-! ### Device discovery (main.rs lines 51-72) -/

/-- The error of `glob(pattern)?`: the glob crate fails only on a malformed
pattern. -/
inductive DiscoveryError where
  | patternError
deriving DecidableEq, Repr

/-- The result of `discover_devices`: the inventory map (entry list of the
`BTreeMap`) plus whether the empty-inventory warning was printed. -/
structure DiscoverResult where
  devs : List (String × Device)
  warned : Bool
deriving DecidableEq, Repr

/-- The loop body of `discover_devices` (main.rs lines 55-65): insert
`(id, Device {id, "Healthy", None})` for the given enumeration index.  The
matched path itself is ignored by the source (`_path`). -/
def insertDiscovered (resourceName : String) (devs : List (String × Device))
    (idx : Nat) : List (String × Device) :=
  btreeInsert (deviceId resourceName idx) (mkDevice (deviceId resourceName idx)) devs

/-- The inventory built by the `discover_devices` loop for an enumeration of
`m` paths: fold the loop body over the sequential indices `0..m`. -/
def discoveredEntries (resourceName : String) (m : Nat) : List (String × Device) :=
  (List.range m).foldl (insertDiscovered resourceName) []

/-- `discover_devices` (main.rs lines 51-72).  The host enumeration is an
input: `patternOk` is whether `glob(DEVICE_GLOB)` parses (it fails only on a
malformed pattern), and `paths` the matched paths in the glob's sorted
enumeration order.  `enumerate()` pairs each with its sequential index; only
the index is used. -/
def discover_devices (resourceName : String) (patternOk : Bool)
    (paths : List String) : Except DiscoveryError DiscoverResult :=
  if patternOk then
    let devs := discoveredEntries resourceName paths.length
    Except.ok { devs := devs, warned := devs.isEmpty }
  else
    Except.error DiscoveryError.patternError

/-- Decimal value of a digit character, the left inverse of `Nat.digitChar`
on digits; used to prove `Nat.repr` injective. -/
def digitCharVal (c : Char) : Nat :=
  if c = '0' then 0 else
  if c = '1' then 1 else
  if c = '2' then 2 else
  if c = '3' then 3 else
  if c = '4' then 4 else
  if c = '5' then 5 else
  if c = '6' then 6 else
  if c = '7' then 7 else
  if c = '8' then 8 else
  if c = '9' then 9 else 0

/-- Decimal value of a digit-character list, most significant first. -/
def digitsVal (l : List Char) : Nat :=
  l.foldl (fun a c => 10 * a + digitCharVal c) 0

/-! ### ListAndWatch stream (main.rs lines 105-137) -/

/-- One subscriber's view of a `list_and_watch` stream: the items sent into
the channel so far, and whether the spawned keep-alive task still holds its
clone of the sender (while it does, the stream stays open). -/
structure Subscriber where
  emitted : List (List Device)
  senderHeld : Bool
deriving DecidableEq, Repr

/-- Handling of a `list_and_watch` call for one subscriber (main.rs lines
105-137): the full inventory (`self.devices.values()`, i.e. the entries in
key order) is sent as the single initial item, and the keep-alive task is
spawned holding a sender clone. -/
def subscribe (devices : List (String × Device)) : Subscriber :=
  { emitted := [devices.map Prod.snd], senderHeld := true }

/-- One observation of the shutdown watch value by the keep-alive task
(main.rs lines 124-134): while the value is `false` it loops and sends
nothing; when it observes `true` it breaks and drops the sender, closing the
stream.  A released sender stays released. -/
def keepAliveStep (s : Subscriber) (shutdownSeen : Bool) : Subscriber :=
  if s.senderHeld then
    if shutdownSeen then { s with senderHeld := false } else s
  else s

/-- A subscriber after observing a sequence of shutdown-signal values. -/
def runSubscriber (devices : List (String × Device)) (observations : List Bool) :
    Subscriber :=
  observations.foldl keepAliveStep (subscribe devices)

/-- The stream is closed exactly when no sender is held any more (the handler's
local sender is dropped when the handler returns). -/
def streamClosed (s : Subscriber) : Bool :=
  ! s.senderHeld

/-! ### Serving endpoint start (main.rs lines 205-228) -/

/-- Errors `start_device_plugin_server` can propagate: `remove_file` failure
or `UnixListener::bind` failure. -/
inductive StartError where
  | removeFailed
  | bindFailed
deriving DecidableEq, Repr

/-- The spawned server task handle (a `JoinHandle<()>`). -/
structure ServerHandle where
  running : Bool
deriving DecidableEq, Repr

/-- The outcome of `start_device_plugin_server`: the propagated result plus
whether a stale socket file was removed first. -/
structure StartOutcome where
  result : Except StartError ServerHandle
  removedStale : Bool
deriving Repr

/-- `start_device_plugin_server` (main.rs lines 205-228): if a file exists at
the socket path it is removed first (failure propagates); then the listener
is bound (failure propagates); then the serving task is spawned and its
handle returned.  Filesystem outcomes (`staleFileExists`, `removeOk`,
`bindOk`) are inputs of the embedding. -/
def start_device_plugin_server (staleFileExists removeOk bindOk : Bool) :
    StartOutcome :=
  if staleFileExists then
    if removeOk then
      { result := if bindOk then Except.ok { running := true }
                  else Except.error StartError.bindFailed,
        removedStale := true }
    else
      { result := Except.error StartError.removeFailed, removedStale := false }
  else
    { result := if bindOk then Except.ok { running := true }
                else Except.error StartError.bindFailed,
      removedStale := false }

/-! ### Coordinator loop `maintain_registration` (main.rs lines 277-325) -/

/-- Observable actions of one coordinator iteration, in program order. -/
inductive CoordAction where
  | abortHandle (h : Nat)
  | installHandle (h : Nat)
  | logRestartFailure
  | registerAttempt
  | logRegisterFailure
  | waitEvent
deriving DecidableEq, Repr

/-- The environment one iteration runs against: the shutdown value at the top
of the loop, whether the socket path exists on disk, the outcome of
`start_device_plugin_server` (a fresh handle id on success), whether
`register_with_kubelet` succeeds, and whether shutdown is signalled during
the `select!` wait. -/
structure CoordEnv where
  shutdownAtStart : Bool
  socketPathExists : Bool
  restartResult : Except StartError Nat
  registerOk : Bool
  shutdownDuringWait : Bool
deriving Repr

/-- Coordinator state: the shared serving-endpoint handle (by id), exchanged
under the `Mutex` in the source. -/
structure CoordState where
  handle : Nat
deriving DecidableEq, Repr

/-- Result of one iteration: the new state, the action trace, and whether the
loop continues to another iteration. -/
structure IterOutcome where
  state : CoordState
  actions : List CoordAction
  continues : Bool
deriving DecidableEq, Repr

/-- One iteration of the `maintain_registration` loop (main.rs lines
287-323): check shutdown first (break with nothing else done); if the socket
path is gone, abort the current handle, then either install the freshly
started handle or log the restart failure; attempt registration, logging a
failure; then wait on the timer / shutdown `select!`, breaking if shutdown
was signalled during the wait. -/
def coordIteration (st : CoordState) (env : CoordEnv) : IterOutcome :=
  if env.shutdownAtStart then
    { state := st, actions := [], continues := false }
  else
    let repaired :=
      if ! env.socketPathExists then
        match env.restartResult with
        | Except.ok h =>
          ({ handle := h },
           [CoordAction.abortHandle st.handle, CoordAction.installHandle h])
        | Except.error _ =>
          (st, [CoordAction.abortHandle st.handle, CoordAction.logRestartFailure])
      else (st, [])
    let acts := repaired.snd ++ [CoordAction.registerAttempt]
      ++ (if env.registerOk then [] else [CoordAction.logRegisterFailure])
      ++ [CoordAction.waitEvent]
    { state := repaired.fst, actions := acts,
      continues := ! env.shutdownDuringWait }

/-- Predicate picking out handle replacements in an action trace. -/
def isInstall (a : CoordAction) : Bool :=
  match a with
  | CoordAction.installHandle _ => true
  | _ => false

/-- The coordinator loop run against a (finite) sequence of environments:
concatenated action trace of the iterations executed before the loop breaks. -/
def coordRun (st : CoordState) : List CoordEnv → List CoordAction
  | [] => []
  | env :: rest =>
    let out := coordIteration st env
    if out.continues then out.actions ++ coordRun out.state rest
    else out.actions

/-! ### Shutdown signal (main.rs lines 337, 365) -/

/-- The single write `main` ever performs on the shutdown watch channel:
`shutdown_tx.send(true)` (main.rs line 365).  As a state transformer on the
channel value it is constantly `true`. -/
def shutdownSend (s : Bool) : Bool :=
  let _ := s
  true

/-- The sequence of values the shutdown channel takes, starting from the
initial `false` of `watch::channel(false)` (main.rs line 337), after `n`
writer sends. -/
def shutdownValues (n : Nat) : List Bool :=
  (List.replicate n ()).scanl (fun s _ => shutdownSend s) false

/-! ## Helper lemmas: `allocate` -/

theorem allocateContainer_ok (devices : List (String × Device)) :
    ∀ ids : List String, (∀ i ∈ ids, containsKey devices i = true) →
      allocateContainer devices ids =
        Except.ok (ids.map (fun i => ({ name := i } : CdiDevice)))
  | [], _ => by simp [allocateContainer]
  | devId :: rest, h => by
    have hhd : containsKey devices devId = true := h devId (by simp)
    have htl := allocateContainer_ok devices rest (fun i hi => h i (by simp [hi]))
    simp [allocateContainer, hhd, htl]

theorem allocateContainer_err (devices : List (String × Device)) :
    ∀ (ids : List String) (u : String),
      ids.find? (fun i => ! containsKey devices i) = some u →
      allocateContainer devices ids =
        Except.error (Status.invalid_argument ("unknown device ID " ++ u))
  | [], u, h => by simp at h
  | devId :: rest, u, h => by
    by_cases hhd : containsKey devices devId = true
    · simp only [List.find?_cons, hhd, Bool.not_true] at h
      have := allocateContainer_err devices rest u h
      simp [allocateContainer, hhd, this]
    · simp only [Bool.not_eq_true] at hhd
      simp only [List.find?_cons, hhd, Bool.not_false] at h
      cases h
      simp [allocateContainer, hhd]

theorem allocateLoop_ok (devices : List (String × Device)) :
    ∀ reqs : List ContainerAllocateRequest,
      (∀ creq ∈ reqs, ∀ i ∈ creq.devices_ids, containsKey devices i = true) →
      allocateLoop devices reqs = Except.ok (reqs.map okContainerResponse)
  | [], _ => by simp [allocateLoop]
  | creq :: rest, h => by
    have hc := allocateContainer_ok devices creq.devices_ids
      (h creq (by simp))
    have ht := allocateLoop_ok devices rest (fun c hc i hi => h c (by simp [hc]) i hi)
    simp [allocateLoop, hc, ht, okContainerResponse]

theorem allocateLoop_err (devices : List (String × Device)) :
    ∀ (reqs : List ContainerAllocateRequest) (u : String),
      firstUnknownId devices reqs = some u →
      allocateLoop devices reqs =
        Except.error (Status.invalid_argument ("unknown device ID " ++ u))
  | [], u, h => by simp [firstUnknownId] at h
  | creq :: rest, u, h => by
    unfold firstUnknownId at h
    cases hf : creq.devices_ids.find? (fun i => ! containsKey devices i) with
    | some w =>
      rw [hf] at h
      cases h
      have := allocateContainer_err devices creq.devices_ids u hf
      simp [allocateLoop, this]
    | none =>
      rw [hf] at h
      have htl := allocateLoop_err devices rest u h
      have hall : ∀ i ∈ creq.devices_ids, containsKey devices i = true := by
        intro i hi
        have := List.find?_eq_none.mp hf i hi
        simpa using this
      have hc := allocateContainer_ok devices creq.devices_ids hall
      simp [allocateLoop, hc, htl]

theorem firstUnknownId_mem (devices : List (String × Device)) :
    ∀ (reqs : List ContainerAllocateRequest) (u : String),
      firstUnknownId devices reqs = some u →
      (∃ creq ∈ reqs, u ∈ creq.devices_ids) ∧ containsKey devices u = false
  | [], u, h => by simp [firstUnknownId] at h
  | creq :: rest, u, h => by
    unfold firstUnknownId at h
    cases hf : creq.devices_ids.find? (fun i => ! containsKey devices i) with
    | some w =>
      rw [hf] at h
      cases h
      refine ⟨⟨creq, by simp, List.mem_of_find?_eq_some hf⟩, ?_⟩
      have := List.find?_some hf
      simpa using this
    | none =>
      rw [hf] at h
      obtain ⟨⟨c, hc, hu⟩, hk⟩ := firstUnknownId_mem devices rest u h
      exact ⟨⟨c, by simp [hc], hu⟩, hk⟩

theorem firstUnknownId_isSome (devices : List (String × Device)) :
    ∀ reqs : List ContainerAllocateRequest,
      (∃ creq ∈ reqs, ∃ i ∈ creq.devices_ids, containsKey devices i = false) →
      ∃ u, firstUnknownId devices reqs = some u
  | [], h => by simp at h
  | creq :: rest, h => by
    unfold firstUnknownId
    cases hf : creq.devices_ids.find? (fun i => ! containsKey devices i) with
    | some w => exact ⟨w, rfl⟩
    | none =>
      obtain ⟨c, hc, i, hi, hik⟩ := h
      rcases List.mem_cons.mp hc with rfl | hc
      · have := List.find?_eq_none.mp hf i hi
        simp [hik] at this
      · exact firstUnknownId_isSome devices rest ⟨c, hc, i, hi, hik⟩

/-! ## Helper lemmas: the `as usize` cast -/

theorem i32AsUsize_of_nonneg (n : Int) (h0 : 0 ≤ n) (h1 : n < 2 ^ 64) :
    i32AsUsize n = n.toNat := by
  unfold i32AsUsize
  rw [Int.emod_eq_of_lt h0 h1]

theorem i32AsUsize_of_neg (n : Int) (hlo : -(2 ^ 31) ≤ n) (hhi : n < 0) :
    2 ^ 63 ≤ i32AsUsize n := by
  unfold i32AsUsize
  have h64 : ((2 : Int) ^ 64) = 18446744073709551616 := by norm_num
  have h31 : ((2 : Int) ^ 31) = 2147483648 := by norm_num
  rw [h64]
  rw [h31] at hlo
  omega

/-! ## Claim theorems -/

/-- C1: `allocate` is atomic over the whole request: whenever any container
request names a device id absent from the inventory, the whole call returns
an `InvalidArgument` error whose message names an offending (requested,
absent) id, and no response is returned for any container. -/
theorem claim_C1_allocate_atomic (devices : List (String × Device))
    (req : AllocateRequest)
    (h : ∃ creq ∈ req.container_requests, ∃ i ∈ creq.devices_ids,
          containsKey devices i = false) :
    ∃ offending,
      (∃ creq ∈ req.container_requests, offending ∈ creq.devices_ids) ∧
      containsKey devices offending = false ∧
      allocate devices req =
        Except.error (Status.invalid_argument ("unknown device ID " ++ offending)) ∧
      ∀ resp, allocate devices req ≠ Except.ok resp := by
  obtain ⟨u, hu⟩ := firstUnknownId_isSome devices req.container_requests h
  obtain ⟨hmem, hkey⟩ := firstUnknownId_mem devices req.container_requests u hu
  have herr := allocateLoop_err devices req.container_requests u hu
  refine ⟨u, hmem, hkey, ?_, ?_⟩
  · simp [allocate, herr]
  · intro resp
    simp [allocate, herr]

/-- C1 witness: a two-container request where the second container names the
unknown id `"nvidia.com/gpu=9"` against a one-device inventory. -/
theorem claim_C1_allocate_atomic_witness :
    ∃ offending,
      (∃ creq ∈ [ContainerAllocateRequest.mk ["nvidia.com/gpu=0"],
                 ContainerAllocateRequest.mk ["nvidia.com/gpu=9"]],
        offending ∈ creq.devices_ids) ∧
      containsKey [("nvidia.com/gpu=0", mkDevice "nvidia.com/gpu=0")] offending = false ∧
      allocate [("nvidia.com/gpu=0", mkDevice "nvidia.com/gpu=0")]
          { container_requests := [ContainerAllocateRequest.mk ["nvidia.com/gpu=0"],
                                   ContainerAllocateRequest.mk ["nvidia.com/gpu=9"]] } =
        Except.error (Status.invalid_argument ("unknown device ID " ++ offending)) ∧
      ∀ resp,
        allocate [("nvidia.com/gpu=0", mkDevice "nvidia.com/gpu=0")]
            { container_requests := [ContainerAllocateRequest.mk ["nvidia.com/gpu=0"],
                                     ContainerAllocateRequest.mk ["nvidia.com/gpu=9"]] } ≠
          Except.ok resp :=
  claim_C1_allocate_atomic
    [("nvidia.com/gpu=0", mkDevice "nvidia.com/gpu=0")]
    { container_requests := [ContainerAllocateRequest.mk ["nvidia.com/gpu=0"],
                             ContainerAllocateRequest.mk ["nvidia.com/gpu=9"]] }
    ⟨ContainerAllocateRequest.mk ["nvidia.com/gpu=9"], by simp,
     "nvidia.com/gpu=9", by simp, by decide⟩

/-- C5: when every requested id exists in the inventory, `allocate` succeeds
with exactly one response per container request, whose CDI device references
are exactly the requested ids in request order, and with no environment
variables, mounts, kernel device specs, or annotations synthesized. -/
theorem claim_C5_allocate_success (devices : List (String × Device))
    (req : AllocateRequest)
    (h : ∀ creq ∈ req.container_requests, ∀ i ∈ creq.devices_ids,
          containsKey devices i = true) :
    allocate devices req =
      Except.ok { container_responses := req.container_requests.map okContainerResponse } := by
  have := allocateLoop_ok devices req.container_requests h
  simp [allocate, this]

/-- C5 witness: a two-container request over a two-device inventory. -/
theorem claim_C5_allocate_success_witness :
    allocate [("g=0", mkDevice "g=0"), ("g=1", mkDevice "g=1")]
        { container_requests := [ContainerAllocateRequest.mk ["g=1", "g=0"],
                                 ContainerAllocateRequest.mk ["g=0"]] } =
      Except.ok { container_responses :=
        [ContainerAllocateRequest.mk ["g=1", "g=0"],
         ContainerAllocateRequest.mk ["g=0"]].map okContainerResponse } :=
  claim_C5_allocate_success
    [("g=0", mkDevice "g=0"), ("g=1", mkDevice "g=1")]
    { container_requests := [ContainerAllocateRequest.mk ["g=1", "g=0"],
                             ContainerAllocateRequest.mk ["g=0"]] }
    (by decide)

/-- C2: `get_preferred_allocation` applies positional truncation independently
per container request: with `allocation_size` in the i32 range and
non-negative, each response is exactly the first `allocation_size` entries of
`available_device_i_ds` in caller order; in particular `[a,b,c,d]` with size 2
gives `[a,b]`, a size at least the length gives the whole list unchanged, and
size 0 gives the empty list. -/
theorem claim_C2_preferred_allocation_truncates :
    (∀ req : PreferredAllocationRequest,
      (∀ c ∈ req.container_requests,
        0 ≤ c.allocation_size ∧ c.allocation_size < 2 ^ 31) →
      (get_preferred_allocation req).container_responses =
        req.container_requests.map (fun c =>
          { device_i_ds := c.available_device_i_ds.take c.allocation_size.toNat })) ∧
    (∀ a b c d : String,
      get_preferred_allocation
          { container_requests :=
              [{ available_device_i_ds := [a, b, c, d], allocation_size := 2 }] } =
        { container_responses := [{ device_i_ds := [a, b] }] }) ∧
    (∀ (avail : List String) (size : Int),
      0 ≤ size → size < 2 ^ 31 → (avail.length : Int) ≤ size →
      get_preferred_allocation
          { container_requests :=
              [{ available_device_i_ds := avail, allocation_size := size }] } =
        { container_responses := [{ device_i_ds := avail }] }) ∧
    (∀ avail : List String,
      get_preferred_allocation
          { container_requests :=
              [{ available_device_i_ds := avail, allocation_size := 0 }] } =
        { container_responses := [{ device_i_ds := [] }] }) := by
  have hcast : ∀ size : Int, 0 ≤ size → size < 2 ^ 31 → i32AsUsize size = size.toNat := by
    intro size h0 h1
    exact i32AsUsize_of_nonneg size h0 (lt_trans h1 (by norm_num))
  refine ⟨?_, ?_, ?_, ?_⟩
  · intro req h
    unfold get_preferred_allocation
    apply List.map_congr_left
    intro c hc
    rw [hcast c.allocation_size (h c hc).1 (h c hc).2]
  · intro a b c d
    have h2 : i32AsUsize 2 = 2 := hcast 2 (by norm_num) (by norm_num)
    simp [get_preferred_allocation, h2]
  · intro avail size h0 h1 hlen
    have hlen2 : avail.length ≤ size.toNat := by omega
    simp [get_preferred_allocation, hcast size h0 h1, List.take_of_length_le hlen2]
  · intro avail
    have h0 : i32AsUsize 0 = 0 := hcast 0 (by norm_num) (by norm_num)
    simp [get_preferred_allocation, h0]

/-- C2 witness: the spec's own instance `[a,b,c,d]`, size 2. -/
theorem claim_C2_preferred_allocation_truncates_witness :
    get_preferred_allocation
        { container_requests :=
            [{ available_device_i_ds := ["d0", "d1", "d2", "d3"], allocation_size := 2 }] } =
      { container_responses := [{ device_i_ds := ["d0", "d1"] }] } :=
  claim_C2_preferred_allocation_truncates.2.1 "d0" "d1" "d2" "d3"

/-- C10: a negative `allocation_size` (i32) wraps through the `as usize` cast
(modulo 2^64) to a length at least 2^63, so for any container request whose
available list has fewer than 2^63 entries the full list is returned
unchanged, and the call succeeds. -/
theorem claim_C10_negative_size_returns_all (req : PreferredAllocationRequest)
    (h : ∀ c ∈ req.container_requests,
      -(2 ^ 31) ≤ c.allocation_size ∧ c.allocation_size < 0 ∧
        c.available_device_i_ds.length < 2 ^ 63) :
    (get_preferred_allocation req).container_responses =
      req.container_requests.map (fun c =>
        { device_i_ds := c.available_device_i_ds }) := by
  unfold get_preferred_allocation
  apply List.map_congr_left
  intro c hc
  obtain ⟨hlo, hhi, hlen⟩ := h c hc
  have hbig := i32AsUsize_of_neg c.allocation_size hlo hhi
  have : c.available_device_i_ds.length ≤ i32AsUsize c.allocation_size := by omega
  simp [List.take_of_length_le this]

/-- C10 witness: size `-1` with a two-element available list. -/
theorem claim_C10_negative_size_returns_all_witness :
    (get_preferred_allocation
        { container_requests :=
            [{ available_device_i_ds := ["d0", "d1"], allocation_size := -1 }] }).container_responses =
      [ContainerPreferredAllocationRequest.mk ["d0", "d1"] (-1)].map (fun c =>
        { device_i_ds := c.available_device_i_ds }) :=
  claim_C10_negative_size_returns_all
    { container_requests :=
        [{ available_device_i_ds := ["d0", "d1"], allocation_size := -1 }] }
    (by intro c hc; simp at hc; subst hc; refine ⟨by norm_num, by norm_num, by simp⟩)

/-! ## Helper lemmas: ListAndWatch stream -/

theorem runSubscriber_foldl_emitted :
    ∀ (obs : List Bool) (s : Subscriber),
      (obs.foldl keepAliveStep s).emitted = s.emitted
  | [], s => rfl
  | b :: rest, s => by
    rw [List.foldl_cons, runSubscriber_foldl_emitted rest]
    unfold keepAliveStep
    by_cases h : s.senderHeld <;> cases b <;> simp [h]

theorem runSubscriber_foldl_senderHeld :
    ∀ (obs : List Bool) (s : Subscriber),
      (obs.foldl keepAliveStep s).senderHeld = (s.senderHeld && ! obs.any id)
  | [], s => by simp
  | b :: rest, s => by
    rw [List.foldl_cons, runSubscriber_foldl_senderHeld rest]
    unfold keepAliveStep
    by_cases h : s.senderHeld <;> cases b <;> simp [h]

/-- C3: a `list_and_watch` subscriber receives exactly one stream item — the
full device inventory — at subscription, and however many shutdown-signal
values its keep-alive task subsequently observes, no further item is ever
emitted and the stream is closed exactly when a `true` signal value has been
observed.  The statement is universally quantified over the per-subscriber
observation sequence; subscribers share no mutable state in `list_and_watch`
(each call builds its own channel and task), so it covers any number of
concurrent subscribers. -/
theorem claim_C3_list_and_watch_stream (devices : List (String × Device))
    (obs : List Bool) :
    (subscribe devices).emitted = [devices.map Prod.snd] ∧
    (runSubscriber devices obs).emitted = [devices.map Prod.snd] ∧
    streamClosed (runSubscriber devices obs) = obs.any id := by
  refine ⟨rfl, ?_, ?_⟩
  · rw [runSubscriber, runSubscriber_foldl_emitted]
    rfl
  · rw [streamClosed, runSubscriber, runSubscriber_foldl_senderHeld]
    simp [subscribe]

/-- C9: `start_device_plugin_server` is idempotent with respect to a stale
socket file: with a removable stale file present, the stale file is removed
first and the result is identical to starting with no pre-existing file, for
either bind outcome; absence of the file is never an error (in particular
never `removeFailed`), and with a successful bind the start succeeds. -/
theorem claim_C9_start_idempotent :
    ∀ removeOk bindOk : Bool,
      (start_device_plugin_server true true bindOk).result =
        (start_device_plugin_server false removeOk bindOk).result ∧
      (start_device_plugin_server true true bindOk).removedStale = true ∧
      (start_device_plugin_server false removeOk bindOk).result ≠
        Except.error StartError.removeFailed ∧
      (start_device_plugin_server true true true).result =
        Except.ok { running := true } ∧
      (start_device_plugin_server false removeOk true).result =
        Except.ok { running := true } := by
  intro removeOk bindOk
  cases removeOk <;> cases bindOk <;>
    refine ⟨rfl, rfl, ?_, rfl, rfl⟩ <;> simp [start_device_plugin_server]

/-! ## Helper lemmas: coordinator loop -/

theorem registerAttempt_mem (st : CoordState) (env : CoordEnv)
    (h : env.shutdownAtStart = false) :
    CoordAction.registerAttempt ∈ (coordIteration st env).actions := by
  unfold coordIteration
  rw [h]
  simp

theorem scanl_shutdownSend_true :
    ∀ n : Nat, (List.replicate n ()).scanl (fun s _ => shutdownSend s) true =
      List.replicate (n + 1) true
  | 0 => rfl
  | n + 1 => by
    rw [List.replicate_succ, List.scanl_cons]
    rw [show shutdownSend true = true from rfl, scanl_shutdownSend_true n]
    rfl

theorem shutdownValues_eq (n : Nat) :
    shutdownValues n = false :: List.replicate n true := by
  cases n with
  | zero => rfl
  | succ n =>
    unfold shutdownValues
    rw [List.replicate_succ, List.scanl_cons]
    rw [show shutdownSend false = true from rfl, scanl_shutdownSend_true n]
    rfl

theorem chain'_replicate_true (R : Bool → Bool → Prop) (hR : R true true) :
    ∀ n : Nat, List.Chain' R (List.replicate n true)
  | 0 => List.chain'_nil
  | 1 => List.chain'_singleton true
  | n + 2 => by
    rw [List.replicate_succ, List.replicate_succ]
    exact List.Chain'.cons hR (by
      rw [← List.replicate_succ]
      exact chain'_replicate_true R hR (n + 1))

/-- C6 counterexample: an iteration that starts with the socket path missing
but whose endpoint restart fails (`bind` error): the handle is not replaced
at all in that iteration, so "replaces the Serving Endpoint handle exactly
once" fails as stated. -/
theorem claim_C6_counterexample :
    ((coordIteration { handle := 0 }
        { shutdownAtStart := false, socketPathExists := false,
          restartResult := Except.error StartError.bindFailed,
          registerOk := true, shutdownDuringWait := false }).actions.countP
      isInstall = 0) ∧
    ¬ ((coordIteration { handle := 0 }
        { shutdownAtStart := false, socketPathExists := false,
          restartResult := Except.error StartError.bindFailed,
          registerOk := true, shutdownDuringWait := false }).actions.countP
      isInstall = 1) := by
  constructor
  · rfl
  · intro h
    simp [coordIteration, List.countP, List.countP.go, isInstall] at h

/-- C6 (amended): in an iteration that starts with the socket path missing
and shutdown unset, the old handle is aborted and a restart is attempted;
when the restart succeeds the shared handle is replaced exactly once, with
the abort strictly before the install and the registration attempt after the
install, all within the same iteration; when the restart fails, no
replacement occurs, the failure is logged, and registration is still
attempted in that iteration. -/
theorem claim_C6_repair_replaces_handle (st : CoordState) (h : Nat)
    (registerOk sdw : Bool) (e : StartError) :
    ((coordIteration st
        { shutdownAtStart := false, socketPathExists := false,
          restartResult := Except.ok h, registerOk := registerOk,
          shutdownDuringWait := sdw }).actions =
        [CoordAction.abortHandle st.handle, CoordAction.installHandle h,
         CoordAction.registerAttempt]
          ++ (if registerOk then [] else [CoordAction.logRegisterFailure])
          ++ [CoordAction.waitEvent] ∧
     (coordIteration st
        { shutdownAtStart := false, socketPathExists := false,
          restartResult := Except.ok h, registerOk := registerOk,
          shutdownDuringWait := sdw }).actions.countP isInstall = 1 ∧
     (coordIteration st
        { shutdownAtStart := false, socketPathExists := false,
          restartResult := Except.ok h, registerOk := registerOk,
          shutdownDuringWait := sdw }).state = { handle := h }) ∧
    ((coordIteration st
        { shutdownAtStart := false, socketPathExists := false,
          restartResult := Except.error e, registerOk := registerOk,
          shutdownDuringWait := sdw }).actions.countP isInstall = 0 ∧
     (coordIteration st
        { shutdownAtStart := false, socketPathExists := false,
          restartResult := Except.error e, registerOk := registerOk,
          shutdownDuringWait := sdw }).state = st ∧
     CoordAction.logRestartFailure ∈
       (coordIteration st
          { shutdownAtStart := false, socketPathExists := false,
            restartResult := Except.error e, registerOk := registerOk,
            shutdownDuringWait := sdw }).actions ∧
     CoordAction.registerAttempt ∈
       (coordIteration st
          { shutdownAtStart := false, socketPathExists := false,
            restartResult := Except.error e, registerOk := registerOk,
            shutdownDuringWait := sdw }).actions) := by
  cases registerOk <;>
    simp [coordIteration, isInstall, List.countP_cons, List.countP_nil]

/-- C7: while the shutdown signal is unset, neither a registration failure
nor an endpoint-restart failure breaks the coordinator loop: the iteration
always reaches its wait step, the decision to continue depends only on the
shutdown signal, a failure is logged, and any subsequent iteration (shutdown
still unset) attempts registration again. -/
theorem claim_C7_errors_logged_and_retried (st : CoordState)
    (socketExists registerOk sdw : Bool) (restartResult : Except StartError Nat) :
    CoordAction.waitEvent ∈
      (coordIteration st
        { shutdownAtStart := false, socketPathExists := socketExists,
          restartResult := restartResult, registerOk := registerOk,
          shutdownDuringWait := sdw }).actions ∧
    (coordIteration st
        { shutdownAtStart := false, socketPathExists := socketExists,
          restartResult := restartResult, registerOk := registerOk,
          shutdownDuringWait := sdw }).continues = ! sdw ∧
    (registerOk = false →
      CoordAction.logRegisterFailure ∈
        (coordIteration st
          { shutdownAtStart := false, socketPathExists := socketExists,
            restartResult := restartResult, registerOk := registerOk,
            shutdownDuringWait := sdw }).actions) ∧
    (∀ e : StartError, socketExists = false → restartResult = Except.error e →
      CoordAction.logRestartFailure ∈
        (coordIteration st
          { shutdownAtStart := false, socketPathExists := socketExists,
            restartResult := restartResult, registerOk := registerOk,
            shutdownDuringWait := sdw }).actions) ∧
    (∀ (se2 ro2 sw2 : Bool) (rr2 : Except StartError Nat),
      CoordAction.registerAttempt ∈
        (coordIteration
          (coordIteration st
            { shutdownAtStart := false, socketPathExists := socketExists,
              restartResult := restartResult, registerOk := registerOk,
              shutdownDuringWait := sdw }).state
          { shutdownAtStart := false, socketPathExists := se2,
            restartResult := rr2, registerOk := ro2,
            shutdownDuringWait := sw2 }).actions) := by
  refine ⟨?_, ?_, ?_, ?_, ?_⟩
  · cases socketExists <;> cases restartResult <;> cases registerOk <;>
      simp [coordIteration]
  · cases socketExists <;> cases restartResult <;>
      simp [coordIteration]
  · intro hro
    subst hro
    cases socketExists <;> cases restartResult <;> simp [coordIteration]
  · intro e hse hrr
    subst hse
    subst hrr
    cases registerOk <;> simp [coordIteration]
  · intro se2 ro2 sw2 rr2
    exact registerAttempt_mem _ _ rfl

/-- C7 witness: socket path missing, restart fails with a bind error, and
registration fails, with shutdown unset: both failures are logged, the
iteration waits and continues, and the next iteration re-attempts
registration. -/
theorem claim_C7_errors_logged_and_retried_witness :
    CoordAction.logRegisterFailure ∈
      (coordIteration { handle := 0 }
        { shutdownAtStart := false, socketPathExists := false,
          restartResult := Except.error StartError.bindFailed, registerOk := false,
          shutdownDuringWait := false }).actions ∧
    CoordAction.logRestartFailure ∈
      (coordIteration { handle := 0 }
        { shutdownAtStart := false, socketPathExists := false,
          restartResult := Except.error StartError.bindFailed, registerOk := false,
          shutdownDuringWait := false }).actions ∧
    (coordIteration { handle := 0 }
        { shutdownAtStart := false, socketPathExists := false,
          restartResult := Except.error StartError.bindFailed, registerOk := false,
          shutdownDuringWait := false }).continues = ! false ∧
    CoordAction.registerAttempt ∈
      (coordIteration
        (coordIteration { handle := 0 }
          { shutdownAtStart := false, socketPathExists := false,
            restartResult := Except.error StartError.bindFailed, registerOk := false,
            shutdownDuringWait := false }).state
        { shutdownAtStart := false, socketPathExists := true,
          restartResult := Except.ok 0, registerOk := true,
          shutdownDuringWait := false }).actions := by
  obtain ⟨hwait, hcont, hlog, hrestart, hnext⟩ :=
    claim_C7_errors_logged_and_retried { handle := 0 } false false false
      (Except.error StartError.bindFailed)
  exact ⟨hlog rfl, hrestart StartError.bindFailed rfl rfl, hcont,
    hnext true true false (Except.ok 0)⟩

/-- C8: the shutdown signal is monotonic — starting from `false`, the only
write the program performs is `send(true)`, so the value sequence is `false`
followed by constantly `true` (a single false-to-true transition, never
reverting) — and once the signal is `true` no new coordinator iteration
begins: the iteration checks the signal first and, when it is set, performs
no action, leaves the state untouched, and terminates the loop. -/
theorem claim_C8_shutdown_monotonic_terminal :
    (∀ n, shutdownValues n = false :: List.replicate n true) ∧
    (∀ n, List.Chain' (fun a b => a = true → b = true) (shutdownValues n)) ∧
    (∀ (st : CoordState) (env : CoordEnv), env.shutdownAtStart = true →
      coordIteration st env = { state := st, actions := [], continues := false }) ∧
    (∀ (st : CoordState) (env : CoordEnv) (rest : List CoordEnv),
      env.shutdownAtStart = true → coordRun st (env :: rest) = []) := by
  have hiter : ∀ (st : CoordState) (env : CoordEnv), env.shutdownAtStart = true →
      coordIteration st env = { state := st, actions := [], continues := false } := by
    intro st env h
    unfold coordIteration
    rw [h]
    rfl
  refine ⟨shutdownValues_eq, ?_, hiter, ?_⟩
  · intro n
    rw [shutdownValues_eq]
    cases n with
    | zero => simp
    | succ n =>
      rw [List.replicate_succ]
      exact List.Chain'.cons (fun h => rfl)
        (by rw [← List.replicate_succ]
            exact chain'_replicate_true _ (fun _ => rfl) (n + 1))
  · intro st env rest h
    unfold coordRun
    rw [hiter st env h]
    simp

/-- C8 witness: one send yields the value sequence `[false, true]`, and a
loop whose next environment has the signal set runs no iteration at all. -/
theorem claim_C8_shutdown_monotonic_terminal_witness :
    shutdownValues 1 = false :: List.replicate 1 true ∧
    coordIteration { handle := 3 }
        { shutdownAtStart := true, socketPathExists := true,
          restartResult := Except.ok 0, registerOk := true,
          shutdownDuringWait := false } =
      { state := { handle := 3 }, actions := [], continues := false } ∧
    coordRun { handle := 3 }
        [{ shutdownAtStart := true, socketPathExists := true,
           restartResult := Except.ok 0, registerOk := true,
           shutdownDuringWait := false }] = [] := by
  obtain ⟨hv, _, hiter, hrun⟩ := claim_C8_shutdown_monotonic_terminal
  exact ⟨hv 1, hiter { handle := 3 } _ rfl, hrun { handle := 3 } _ [] rfl⟩

/-! ## Helper lemmas: decimal representation and device-id injectivity -/

theorem digitCharVal_digitChar (r : Nat) (h : r < 10) :
    digitCharVal (Nat.digitChar r) = r := by
  interval_cases r <;> rfl

theorem toDigitsCore_succ (f n : Nat) (acc : List Char) :
    Nat.toDigitsCore 10 (f + 1) n acc =
      if n / 10 = 0 then Nat.digitChar (n % 10) :: acc
      else Nat.toDigitsCore 10 f (n / 10) (Nat.digitChar (n % 10) :: acc) :=
  rfl

theorem toDigitsCore_foldl :
    ∀ (f n : Nat) (acc : List Char), n < 10 ^ f →
      (Nat.toDigitsCore 10 f n acc).foldl (fun a c => 10 * a + digitCharVal c) 0 =
        acc.foldl (fun a c => 10 * a + digitCharVal c) n
  | 0, n, acc, h => by
    have hn : n = 0 := by simpa using h
    subst hn
    rfl
  | f + 1, n, acc, h => by
    rw [toDigitsCore_succ]
    by_cases hdiv : n / 10 = 0
    · rw [if_pos hdiv, List.foldl_cons,
        digitCharVal_digitChar (n % 10) (Nat.mod_lt n (by norm_num))]
      have hlt : n < 10 := by omega
      have : 10 * 0 + n % 10 = n := by
        rw [Nat.mod_eq_of_lt hlt]
        omega
      rw [this]
    · rw [if_neg hdiv]
      have hlt : n / 10 < 10 ^ f := by
        have hp : 10 ^ (f + 1) = 10 ^ f * 10 := by ring
        rw [hp] at h
        exact (Nat.div_lt_iff_lt_mul (by norm_num)).mpr h
      rw [toDigitsCore_foldl f (n / 10) _ hlt, List.foldl_cons,
        digitCharVal_digitChar (n % 10) (Nat.mod_lt n (by norm_num)),
        Nat.div_add_mod]

theorem digitsVal_repr (n : Nat) : digitsVal (Nat.repr n).data = n := by
  have hdata : (Nat.repr n).data = Nat.toDigits 10 n := rfl
  have hlt : n < 10 ^ (n + 1) :=
    lt_of_lt_of_le (Nat.lt_pow_self (by norm_num) n)
      (Nat.pow_le_pow_right (by norm_num) (Nat.le_succ n))
  rw [hdata]
  unfold Nat.toDigits digitsVal
  rw [toDigitsCore_foldl (n + 1) n [] hlt]
  rfl

theorem nat_repr_injective {m n : Nat} (h : Nat.repr m = Nat.repr n) : m = n := by
  have := congrArg (fun s => digitsVal s.data) h
  simpa [digitsVal_repr] using this

theorem deviceId_inj (rn : String) {i j : Nat} (h : deviceId rn i = deviceId rn j) :
    i = j := by
  unfold deviceId at h
  have hd := congrArg String.data h
  rw [String.data_append, String.data_append] at hd
  have hr : (Nat.repr i).data = (Nat.repr j).data := List.append_cancel_left hd
  have : Nat.repr i = Nat.repr j := by
    cases hrepr : Nat.repr i with
    | mk di =>
      cases hrepr2 : Nat.repr j with
      | mk dj =>
        rw [hrepr, hrepr2] at hr
        simp at hr
        rw [hr]
  exact nat_repr_injective this

/-! ## Helper lemmas: `btreeInsert` -/

theorem length_btreeInsert_of_fresh (k : String) (v : Device) :
    ∀ l : List (String × Device), (∀ kv ∈ l, kv.fst ≠ k) →
      (btreeInsert k v l).length = l.length + 1
  | [], _ => rfl
  | (k₀, v₀) :: rest, h => by
    unfold btreeInsert
    by_cases h1 : k < k₀
    · simp [h1]
    · have h2 : ¬ k = k₀ := fun he => h (k₀, v₀) (by simp) (by simp [he])
      simp only [if_neg h1, if_neg h2, List.length_cons]
      rw [length_btreeInsert_of_fresh k v rest (fun kv hkv => h kv (by simp [hkv]))]

theorem mem_btreeInsert_self (k : String) (v : Device) :
    ∀ l : List (String × Device), (k, v) ∈ btreeInsert k v l
  | [] => by simp [btreeInsert]
  | (k₀, v₀) :: rest => by
    unfold btreeInsert
    by_cases h1 : k < k₀
    · simp [h1]
    · by_cases h2 : k = k₀
      · simp [h1, h2]
      · simp only [if_neg h1, if_neg h2]
        exact List.mem_cons_of_mem _ (mem_btreeInsert_self k v rest)

theorem mem_btreeInsert_of_mem (k : String) (v : Device) :
    ∀ (l : List (String × Device)) (kv : String × Device),
      kv ∈ l → kv.fst ≠ k → kv ∈ btreeInsert k v l
  | [], kv, h, _ => by simp at h
  | (k₀, v₀) :: rest, kv, h, hne => by
    unfold btreeInsert
    by_cases h1 : k < k₀
    · simp only [if_pos h1]
      exact List.mem_cons_of_mem _ h
    · by_cases h2 : k = k₀
      · simp only [if_neg h1, if_pos h2]
        rcases List.mem_cons.mp h with rfl | hrest
        · exact absurd h2.symm (by simpa using hne)
        · exact List.mem_cons_of_mem _ hrest
      · simp only [if_neg h1, if_neg h2]
        rcases List.mem_cons.mp h with rfl | hrest
        · exact List.mem_cons_self _ _
        · exact List.mem_cons_of_mem _ (mem_btreeInsert_of_mem k v rest kv hrest hne)

theorem mem_btreeInsert_elim (k : String) (v : Device) :
    ∀ (l : List (String × Device)) (kv : String × Device),
      kv ∈ btreeInsert k v l → kv = (k, v) ∨ kv ∈ l
  | [], kv, h => by simpa [btreeInsert] using h
  | (k₀, v₀) :: rest, kv, h => by
    unfold btreeInsert at h
    by_cases h1 : k < k₀
    · rw [if_pos h1] at h
      rcases List.mem_cons.mp h with rfl | h
      · exact Or.inl rfl
      · exact Or.inr h
    · by_cases h2 : k = k₀
      · rw [if_neg h1, if_pos h2] at h
        rcases List.mem_cons.mp h with rfl | h
        · exact Or.inl rfl
        · exact Or.inr (List.mem_cons_of_mem _ h)
      · rw [if_neg h1, if_neg h2] at h
        rcases List.mem_cons.mp h with rfl | h
        · exact Or.inr (List.mem_cons_self _ _)
        · rcases mem_btreeInsert_elim k v rest kv h with h | h
          · exact Or.inl h
          · exact Or.inr (List.mem_cons_of_mem _ h)

theorem nodup_keys_btreeInsert (k : String) (v : Device) :
    ∀ l : List (String × Device), ((l.map Prod.fst).Nodup) →
      (∀ kv ∈ l, kv.fst ≠ k) → ((btreeInsert k v l).map Prod.fst).Nodup
  | [], _, _ => by simp [btreeInsert]
  | (k₀, v₀) :: rest, hnd, hfresh => by
    simp only [List.map_cons, List.nodup_cons] at hnd
    obtain ⟨hk₀, hndrest⟩ := hnd
    unfold btreeInsert
    by_cases h1 : k < k₀
    · simp only [if_pos h1, List.map_cons, List.nodup_cons]
      refine ⟨?_, hk₀, hndrest⟩
      intro hmem
      rcases List.mem_cons.mp hmem with he | hmem
      · exact hfresh (k₀, v₀) (by simp) (by simp [he.symm])
      · obtain ⟨⟨kk, vv⟩, hkv, he⟩ := List.mem_map.mp hmem
        exact hfresh (kk, vv) (by simp [hkv]) (by simpa using he)
    · have h2 : ¬ k = k₀ := fun he => hfresh (k₀, v₀) (by simp) (by simp [he])
      simp only [if_neg h1, if_neg h2, List.map_cons, List.nodup_cons]
      refine ⟨?_, nodup_keys_btreeInsert k v rest hndrest
        (fun kv hkv => hfresh kv (by simp [hkv]))⟩
      intro hmem
      obtain ⟨⟨kk, vv⟩, hkv, he⟩ := List.mem_map.mp hmem
      rcases mem_btreeInsert_elim k v rest (kk, vv) hkv with hkv2 | hkv2
      · apply h2
        have : kk = k := by
          have := congrArg Prod.fst hkv2
          simpa using this
        rw [← he, this]
      · exact hk₀ (by rw [← he]; exact List.mem_map.mpr ⟨(kk, vv), hkv2, rfl⟩)

/-! ## Helper lemmas: discovery fold invariant -/

theorem discoveredEntries_succ (rn : String) (m : Nat) :
    discoveredEntries rn (m + 1) =
      btreeInsert (deviceId rn m) (mkDevice (deviceId rn m)) (discoveredEntries rn m) := by
  unfold discoveredEntries
  rw [List.range_succ, List.foldl_append]
  rfl

theorem discoveredEntries_spec (rn : String) :
    ∀ m : Nat,
      (discoveredEntries rn m).length = m ∧
      (∀ i, i < m →
        (deviceId rn i, mkDevice (deviceId rn i)) ∈ discoveredEntries rn m) ∧
      (∀ kv ∈ discoveredEntries rn m,
        ∃ i, i < m ∧ kv = (deviceId rn i, mkDevice (deviceId rn i))) ∧
      ((discoveredEntries rn m).map Prod.fst).Nodup
  | 0 => by refine ⟨rfl, ?_, ?_, ?_⟩ <;> simp [discoveredEntries]
  | m + 1 => by
    obtain ⟨hlen, hmem, hchar, hnd⟩ := discoveredEntries_spec rn m
    have hfresh : ∀ kv ∈ discoveredEntries rn m, kv.fst ≠ deviceId rn m := by
      intro kv hkv he
      obtain ⟨i, hi, rfl⟩ := hchar kv hkv
      have : i = m := deviceId_inj rn (by simpa using he)
      omega
    rw [discoveredEntries_succ]
    refine ⟨?_, ?_, ?_, ?_⟩
    · rw [length_btreeInsert_of_fresh _ _ _ hfresh, hlen]
    · intro i hi
      by_cases him : i = m
      · subst him
        exact mem_btreeInsert_self _ _ _
      · exact mem_btreeInsert_of_mem _ _ _ _ (hmem i (by omega))
          (by simpa using fun he => him (deviceId_inj rn he))
    · intro kv hkv
      rcases mem_btreeInsert_elim _ _ _ kv hkv with rfl | hkv2
      · exact ⟨m, by omega, rfl⟩
      · obtain ⟨i, hi, rfl⟩ := hchar kv hkv2
        exact ⟨i, by omega, rfl⟩
    · exact nodup_keys_btreeInsert _ _ _ hnd hfresh

/-- C4: `discover_devices` fails only when the glob pattern is malformed; for
any well-formed pattern and any host enumeration of N paths it succeeds with
a mapping of exactly N entries whose ids are pairwise distinct and equal to
`"{resourceName}={index}"` for the sequential indices `0..N` of the
enumeration order; N = 0 is a success that sets the warning flag, not an
error. -/
theorem claim_C4_discover_devices (rn : String) (patternOk : Bool)
    (paths : List String) :
    (patternOk = false →
      discover_devices rn patternOk paths = Except.error DiscoveryError.patternError) ∧
    (patternOk = true →
      ∃ r, discover_devices rn patternOk paths = Except.ok r ∧
        r.devs.length = paths.length ∧
        (r.devs.map Prod.fst).Nodup ∧
        (∀ i, i < paths.length →
          (deviceId rn i, mkDevice (deviceId rn i)) ∈ r.devs) ∧
        (∀ kv ∈ r.devs,
          ∃ i, i < paths.length ∧ kv = (deviceId rn i, mkDevice (deviceId rn i))) ∧
        (r.warned = true ↔ paths.length = 0)) := by
  constructor
  · intro h
    subst h
    rfl
  · intro h
    subst h
    obtain ⟨hlen, hmem, hchar, hnd⟩ := discoveredEntries_spec rn paths.length
    refine ⟨{ devs := discoveredEntries rn paths.length,
              warned := (discoveredEntries rn paths.length).isEmpty },
      rfl, hlen, hnd, hmem, hchar, ?_⟩
    rw [List.isEmpty_iff, ← List.length_eq_zero, hlen]

/-- C4 witness: a well-formed pattern with a one-path enumeration. -/
theorem claim_C4_discover_devices_witness :
    ∃ r, discover_devices "nvidia.com/gpu" true ["/dev/nvidia0"] = Except.ok r ∧
      r.devs.length = ["/dev/nvidia0"].length ∧
      (r.devs.map Prod.fst).Nodup ∧
      (∀ i, i < ["/dev/nvidia0"].length →
        (deviceId "nvidia.com/gpu" i,
          mkDevice (deviceId "nvidia.com/gpu" i)) ∈ r.devs) ∧
      (∀ kv ∈ r.devs, ∃ i, i < ["/dev/nvidia0"].length ∧
        kv = (deviceId "nvidia.com/gpu" i, mkDevice (deviceId "nvidia.com/gpu" i))) ∧
      (r.warned = true ↔ ["/dev/nvidia0"].length = 0) :=
  (claim_C4_discover_devices "nvidia.com/gpu" true ["/dev/nvidia0"]).2 rfl

end NvidiaCdi
